import Mathlib

/-!
Verification of the L-Store storage engine (`lstore/` package): shallow
embedding of the configuration constants, RID arithmetic, page classes,
page-range tail writes, buffer-pool frame management, index maintenance
and the query facade, together with theorems settling the specification
claims about them.
-/

namespace LStore

/-! ## Configuration constants, from `lstore/config.py` -/

def INTEGER_BYTE_SIZE : Nat := 4

def METADATA_COLUMNS : Nat := 4
def INDIRECTION_COLUMN : Nat := 0
def RID_COLUMN : Nat := 1
def TIMESTAMP_COLUMN : Nat := 2
def SCHEMA_ENCODING_COLUMN : Nat := 3
def UPDATE_TIMESTAMP_COLUMN : Nat := 3

def PAGE_SIZE : Nat := 4096
def RECORD_SIZE : Nat := 8
def PAGE_CAPACITY : Nat := PAGE_SIZE / RECORD_SIZE
def MAX_RECORD_PER_PAGE : Nat := PAGE_SIZE / INTEGER_BYTE_SIZE

def BASE_PAGES_PER_RANGE : Nat := 16
def MAX_PAGE_RANGE : Nat := 32
def MAX_RECORD_PER_PAGE_RANGE : Nat := MAX_RECORD_PER_PAGE * MAX_PAGE_RANGE
def MAX_TAIL_PAGES_BEFORE_MERGING : Nat := MAX_PAGE_RANGE

def NUM_HIDDEN_COLUMNS : Nat := 5
def RECORD_DELETION_FLAG : Int := -1
def RECORD_NONE_VALUE : Int := -2

def MAX_NUM_FRAME : Nat := MAX_PAGE_RANGE * 2

/-! ## RID arithmetic, from `Table.get_base_record_location`
(`lstore/table.py`): the location of a base RID is computed with the
divisors `MAX_RECORD_PER_PAGE_RANGE` and `MAX_RECORD_PER_PAGE`. -/

def get_base_record_location (rid : Nat) : Nat × Nat × Nat :=
  (rid / MAX_RECORD_PER_PAGE_RANGE,
   (rid % MAX_RECORD_PER_PAGE_RANGE) / MAX_RECORD_PER_PAGE,
   rid % MAX_RECORD_PER_PAGE)

/-! ## The Page class of `lstore/page.py`
This class advertises `RECORDS_PER_PAGE = 4000` slots in a
`4096 * 16`-byte buffer; `has_capacity` compares `num_records` against
`RECORDS_PER_PAGE`.  (The byte buffers themselves hold utf-8 encoded
values and are irrelevant to the capacity check, so they are elided.) -/

structure Page where
  num_columns : Nat
  page_type : String
  num_records : Nat
  offsets : List Nat
  invalid_records : List Nat
deriving Repr, DecidableEq

namespace Page

def PAGE_SIZE_PY : Nat := 4096 * 16

def RECORDS_PER_PAGE : Nat := 4000

def has_capacity (p : Page) : Bool :=
  p.num_records < RECORDS_PER_PAGE

end Page

/-! ## The persisted page used by the buffer pool

Modelled from the spec: the Page class that `lstore/bufferpool.py`
instantiates (`Page()` with no arguments) and drives through
`serialize`, `deserialize`, `get`, `write`, `write_precise` and
`has_capacity` is not part of the sources; `lstore/page.py` only holds
an incompatible legacy class.  Following spec section 4.1: a page is a
fixed-size buffer of 8-byte signed integer slots with a slot counter
`num_records`; `serialize` produces the persisted representation, an
`entry_count` plus the little-endian byte image of the slot array, and
`deserialize` is its inverse. -/

structure StorePage where
  num_records : Nat
  data : List Int
deriving Repr, DecidableEq

namespace StorePage

/-- Little-endian base-256 digits of a natural number, `k` bytes. -/
def toBytesLE : Nat → Nat → List Nat
  | 0, _ => []
  | k + 1, u => u % 256 :: toBytesLE k (u / 256)

/-- Reassembles a little-endian byte list into a natural number. -/
def fromBytesLE (bs : List Nat) : Nat :=
  bs.foldr (fun b acc => b + 256 * acc) 0

/-- Modelled from the spec: an 8-byte signed little-endian encoding of
one slot value (two's complement through reduction modulo 2^64). -/
def encodeSlot (v : Int) : List Nat :=
  toBytesLE 8 (v.emod (2 ^ 64)).toNat

/-- Modelled from the spec: decodes one 8-byte group back into a signed
64-bit slot value. -/
def decodeSlot (bs : List Nat) : Int :=
  let u := fromBytesLE bs
  if u < 2 ^ 63 then (u : Int) else (u : Int) - 2 ^ 64

/-- Splits the persisted byte image into 8-byte groups and decodes each. -/
def decodeSlots (bs : List Nat) : List Int :=
  if h : bs = [] then []
  else decodeSlot (bs.take 8) :: decodeSlots (bs.drop 8)
termination_by bs.length
decreasing_by
  simp only [List.length_drop]
  have : 0 < bs.length := List.length_pos.mpr h
  omega

/-- Modelled from the spec: the persisted representation of a page is
its `entry_count` plus the byte image of the slot array. -/
def serialize (p : StorePage) : Nat × List Nat :=
  (p.num_records, p.data.flatMap encodeSlot)

/-- Modelled from the spec: reconstruct a page from its persisted
representation. -/
def deserialize (blob : Nat × List Nat) : StorePage :=
  { num_records := blob.1, data := decodeSlots blob.2 }

/-- Spec section 4.1: `has_capacity` is `num_records < PAGE_CAPACITY`. -/
def has_capacity (p : StorePage) : Bool :=
  p.num_records < PAGE_CAPACITY

/-- Spec section 4.1: `get(slot)` returns the slot content. -/
def get (p : StorePage) (slot : Nat) : Int :=
  p.data.getD slot 0

/-- Spec section 4.1: `write_precise` overwrites an existing slot
in place without changing `num_records`. -/
def write_precise (p : StorePage) (slot : Nat) (v : Int) : StorePage :=
  { p with data := p.data.set slot v }

/-- Spec section 4.2 loading step 3: a freshly constructed empty page. -/
def emptyPage : StorePage :=
  { num_records := 0, data := [] }

/-- A slot value fits in a signed 64-bit integer. -/
def slotInRange (v : Int) : Prop :=
  -(2 ^ 63) ≤ v ∧ v < 2 ^ 63

instance (v : Int) : Decidable (slotInRange v) := by
  unfold slotInRange
  infer_instance

end StorePage

end LStore

namespace LStore

/-! ## Claim C1 -/

/-- C1 counterexample: the claim asserts that for every base RID below
`T = MAX_RECORD_PER_PAGE_RANGE` the page index and slot are computed with
divisor `PAGE_CAPACITY = 512`.  At RID 512 (a base RID) the code returns
slot 512 inside page 0, while the claimed formula yields page 1, slot 0. -/
theorem C1_location_uses_1024_not_512 :
    512 < MAX_RECORD_PER_PAGE_RANGE ∧
    get_base_record_location 512 ≠
      (512 / MAX_RECORD_PER_PAGE_RANGE,
       (512 % MAX_RECORD_PER_PAGE_RANGE) / PAGE_CAPACITY,
       512 % PAGE_CAPACITY) := by
  decide

/-- C1 amended: for every base RID `r < T`, `get_base_record_location r`
equals `(r / T, (r mod T) / MAX_RECORD_PER_PAGE, r mod MAX_RECORD_PER_PAGE)`
with `MAX_RECORD_PER_PAGE = PAGE_SIZE / INTEGER_BYTE_SIZE = 1024` (not
`PAGE_CAPACITY = 512`); the page range index is 0 and the page/slot pair
is the unique decomposition of `r` in base `MAX_RECORD_PER_PAGE`. -/
theorem C1_base_record_location (r : Nat) (h : r < MAX_RECORD_PER_PAGE_RANGE) :
    get_base_record_location r =
      (r / MAX_RECORD_PER_PAGE_RANGE,
       (r % MAX_RECORD_PER_PAGE_RANGE) / MAX_RECORD_PER_PAGE,
       r % MAX_RECORD_PER_PAGE) ∧
    (get_base_record_location r).1 = 0 ∧
    (get_base_record_location r).2.1 * MAX_RECORD_PER_PAGE +
      (get_base_record_location r).2.2 = r ∧
    (get_base_record_location r).2.2 < MAX_RECORD_PER_PAGE := by
  unfold get_base_record_location
  refine ⟨rfl, Nat.div_eq_of_lt h, ?_, Nat.mod_lt _ (by decide)⟩
  show (r % MAX_RECORD_PER_PAGE_RANGE) / MAX_RECORD_PER_PAGE *
      MAX_RECORD_PER_PAGE + r % MAX_RECORD_PER_PAGE = r
  rw [Nat.mod_eq_of_lt h, Nat.mul_comm]
  exact Nat.div_add_mod r MAX_RECORD_PER_PAGE

/-- C1 amended witness at RID 1000. -/
theorem C1_base_record_location_witness :
    1000 < MAX_RECORD_PER_PAGE_RANGE ∧
    get_base_record_location 1000 =
      (1000 / MAX_RECORD_PER_PAGE_RANGE,
       (1000 % MAX_RECORD_PER_PAGE_RANGE) / MAX_RECORD_PER_PAGE,
       1000 % MAX_RECORD_PER_PAGE) :=
  ⟨by decide, (C1_base_record_location 1000 (by decide)).1⟩

/-! ## Claim C8 -/

/-- A page with 512 records already stored: `has_capacity` still reports
room, because the class bound is `RECORDS_PER_PAGE = 4000`. -/
def pageWith512Records : Page :=
  { num_columns := 4, page_type := "base", num_records := 512,
    offsets := [0, 0, 0, 0], invalid_records := [] }

/-- C8 counterexample: the claim asserts `has_capacity` is true iff
`num_records < PAGE_CAPACITY = 512`.  The class in `lstore/page.py`
compares against its own `RECORDS_PER_PAGE = 4000`: at
`num_records = 512` it returns true although `512 < 512` fails. -/
theorem C8_capacity_bound_is_4000_not_512 :
    Page.has_capacity pageWith512Records = true ∧
    ¬ (pageWith512Records.num_records < PAGE_CAPACITY) := by
  decide

/-- C8 amended: for every page state, `has_capacity` returns true iff
`num_records` is strictly below the class constant
`RECORDS_PER_PAGE = 4000` (the bound is not `PAGE_CAPACITY = 512`, and
the class fixes its own `PAGE_SIZE` of `4096 * 16` bytes). -/
theorem C8_has_capacity_iff (p : Page) :
    Page.has_capacity p = true ↔ p.num_records < Page.RECORDS_PER_PAGE := by
  simp [Page.has_capacity]

/-! ## Claim C2: page serialization round trip -/

namespace StorePage

theorem length_toBytesLE (k u : Nat) : (toBytesLE k u).length = k := by
  induction k generalizing u with
  | zero => rfl
  | succ n ih => simp [toBytesLE, ih]

theorem fromBytes_toBytes (k u : Nat) (h : u < 256 ^ k) :
    fromBytesLE (toBytesLE k u) = u := by
  induction k generalizing u with
  | zero =>
    simp [toBytesLE, fromBytesLE]
    omega
  | succ n ih =>
    have hdiv : u / 256 < 256 ^ n := by
      rw [Nat.div_lt_iff_lt_mul (by omega)]
      calc u < 256 ^ (n + 1) := h
        _ = 256 ^ n * 256 := by rw [Nat.pow_succ]
    have := ih (u / 256) hdiv
    simp only [toBytesLE, fromBytesLE, List.foldr_cons] at *
    rw [this]
    omega

theorem decode_encode (v : Int) (h : slotInRange v) :
    decodeSlot (encodeSlot v) = v := by
  obtain ⟨hlo, hhi⟩ := h
  have h64 : (0 : Int) < 2 ^ 64 := by positivity
  have hnn : 0 ≤ v.emod (2 ^ 64) := Int.emod_nonneg v (by positivity)
  have hlt : v.emod (2 ^ 64) < 2 ^ 64 := Int.emod_lt_of_pos v h64
  have hm : ((v.emod (2 ^ 64)).toNat : Int) = v.emod (2 ^ 64) :=
    Int.toNat_of_nonneg hnn
  have hmlt : (v.emod (2 ^ 64)).toNat < 256 ^ 8 := by
    have : (256 : Nat) ^ 8 = 2 ^ 64 := by norm_num
    rw [this]
    omega
  have hfb : fromBytesLE (toBytesLE 8 (v.emod (2 ^ 64)).toNat) =
      (v.emod (2 ^ 64)).toNat := fromBytes_toBytes 8 _ hmlt
  have hval : v.emod (2 ^ 64) = if 0 ≤ v then v else v + 2 ^ 64 := by
    split
    · exact Int.emod_eq_of_lt (by assumption) (by omega)
    · have hshift : (v + 2 ^ 64 * 1) % (2 ^ 64 : Int) = v % (2 ^ 64 : Int) :=
        Int.add_mul_emod_self_left v (2 ^ 64) 1
      rw [mul_one] at hshift
      show v % (2 ^ 64 : Int) = v + 2 ^ 64
      rw [← hshift]
      exact Int.emod_eq_of_lt (by omega) (by omega)
  unfold decodeSlot encodeSlot
  rw [hfb]
  dsimp only
  split <;> omega

theorem encodeSlot_length (v : Int) : (encodeSlot v).length = 8 :=
  length_toBytesLE 8 _

theorem decodeSlots_cons (v : Int) (rest : List Nat) (h : slotInRange v) :
    decodeSlots (encodeSlot v ++ rest) = v :: decodeSlots rest := by
  have hlen : (encodeSlot v).length = 8 := encodeSlot_length v
  have hne : encodeSlot v ++ rest ≠ [] := by
    intro hcontra
    have := congrArg List.length hcontra
    simp [hlen] at this
  rw [decodeSlots, dif_neg hne]
  have htake : (encodeSlot v ++ rest).take 8 = encodeSlot v := by
    rw [← hlen]
    exact List.take_left _ _
  have hdrop : (encodeSlot v ++ rest).drop 8 = rest := by
    rw [← hlen]
    exact List.drop_left _ _
  rw [htake, hdrop, decode_encode v h]

theorem decodeSlots_flatMap (l : List Int) (h : ∀ v ∈ l, slotInRange v) :
    decodeSlots (l.flatMap encodeSlot) = l := by
  induction l with
  | nil => simp [decodeSlots]
  | cons v vs ih =>
    have hv : slotInRange v := h v (by simp)
    have hvs : ∀ w ∈ vs, slotInRange w := fun w hw => h w (by simp [hw])
    simp only [List.flatMap_cons]
    rw [decodeSlots_cons v _ hv, ih hvs]

/-- C2: deserializing the result of serializing a page is the identity,
for every page whose slot values are signed 64-bit integers (as the spec
fixes for all column values). -/
theorem C2_serialize_roundtrip (p : StorePage)
    (h : ∀ v ∈ p.data, slotInRange v) :
    deserialize (serialize p) = p := by
  obtain ⟨n, data⟩ := p
  simp only [serialize, deserialize]
  rw [decodeSlots_flatMap data h]

/-- C2 witness: a concrete page with two in-range slot values, one of
them negative, survives the round trip. -/
theorem C2_serialize_roundtrip_witness :
    (∀ v ∈ (StorePage.mk 2 [5, -7]).data, slotInRange v) ∧
    deserialize (serialize (StorePage.mk 2 [5, -7])) = StorePage.mk 2 [5, -7] :=
  ⟨by decide, C2_serialize_roundtrip (StorePage.mk 2 [5, -7]) (by decide)⟩

end StorePage

/-! ## Page range tail writes, from `PageRange.write_tail_record`
(`lstore/page_range.py`)

The buffer pool's answers are supplied by two environment oracles:
`caps col pg` is the value `get_page_has_capacity` returns for the tail
page `pg` of column `col` (`some true`, `some false`, or `none` when no
frame could be supplied), and `wpn col pg` is the slot index
`write_page_next` reports for an append.  Physical writes are recorded
in a write log. -/

/-- Python truthiness of a `bool`-or-`None` value: `None` and `False`
are falsy, `True` is truthy. -/
def pyTruthy : Option Bool → Bool
  | some b => b
  | none => false

structure PageRangeState where
  tps : Nat
  tail_page_index : List Nat
  logical_directory : List (Nat × List (Option Nat))
  write_log : List (Nat × Nat × Int)
deriving Repr, DecidableEq

namespace PageRangeState

/-- Updates position `i` of the directory row of `logical_rid`
(`self.logical_directory[logical_rid][col_idx - NUM_HIDDEN_COLUMNS] = ...`). -/
def dirUpdate (d : List (Nat × List (Option Nat))) (logical_rid i : Nat)
    (x : Option Nat) : List (Nat × List (Option Nat)) :=
  d.map fun e => if e.1 = logical_rid then (e.1, e.2.set i x) else e

/-- One append of a column value into the current tail page of column
`idx`: issue `write_page_next`, and for user columns record the global
offset `tail_page_index * MAX_RECORD_PER_PAGE + slot` in the logical
directory. -/
def tailAppend (wpn : Nat → Nat → Nat) (s : PageRangeState)
    (idx logical_rid : Nat) (v : Int) : PageRangeState :=
  let ti := s.tail_page_index.getD idx 0
  let slot := wpn idx ti
  let s1 := { s with write_log := s.write_log ++ [(idx, ti, v)] }
  let newDir :=
    dirUpdate s1.logical_directory logical_rid (idx - NUM_HIDDEN_COLUMNS)
      (some (ti * MAX_RECORD_PER_PAGE + slot))
  if NUM_HIDDEN_COLUMNS ≤ idx then
    { s1 with logical_directory := newDir }
  else s1

/-- The per-column loop of `write_tail_record`, transliterated: skip
null values; ask `get_page_has_capacity`; `if not space_available:`
advance the tail page index; `elif space_available is None: return
False`; then append and continue.  Finishing the loop increments `tps`
and returns `True`. -/
def writeTailLoop (caps : Nat → Nat → Option Bool) (wpn : Nat → Nat → Nat) :
    List (Option Int) → Nat → Nat → PageRangeState → PageRangeState × Bool
  | [], _, _, s => ({ s with tps := s.tps + 1 }, true)
  | none :: rest, idx, logical_rid, s =>
      writeTailLoop caps wpn rest (idx + 1) logical_rid s
  | some v :: rest, idx, logical_rid, s =>
      let ti := s.tail_page_index.getD idx 0
      let sa := caps idx ti
      if pyTruthy sa = false then
        let s1 := { s with tail_page_index := s.tail_page_index.set idx (ti + 1) }
        writeTailLoop caps wpn rest (idx + 1) logical_rid
          (tailAppend wpn s1 idx logical_rid v)
      else if sa = none then
        (s, false)
      else
        writeTailLoop caps wpn rest (idx + 1) logical_rid
          (tailAppend wpn s idx logical_rid v)

/-- Source `PageRange.write_tail_record`: allocate the directory row for the
logical RID, run the per-column loop, increment `tps`, return `True`. -/
def write_tail_record (caps : Nat → Nat → Option Bool) (wpn : Nat → Nat → Nat)
    (s : PageRangeState) (logical_rid : Nat) (columns : List (Option Int)) :
    PageRangeState × Bool :=
  let row := List.replicate (columns.length - NUM_HIDDEN_COLUMNS) (none : Option Nat)
  let s0 := { s with logical_directory := (logical_rid, row) :: s.logical_directory }
  writeTailLoop caps wpn columns 0 logical_rid s0

end PageRangeState

/-! ## Table.update_record, from `lstore/table.py` -/

/-- Source `Table.update_record`: stamp `columns[TIMESTAMP_COLUMN]` with the
page range's `tps`, write the tail record via
`write_tail_record(columns[RID_COLUMN], *columns)`, and enqueue a merge
request when the page range's `tps` after the write is divisible by
`MAX_TAIL_PAGES_BEFORE_MERGING * MAX_RECORD_PER_PAGE`.  Returns the
updated page range state, the merge queue, and the success flag. -/
def update_record (caps : Nat → Nat → Option Bool) (wpn : Nat → Nat → Nat)
    (s : PageRangeState) (merge_queue : List Nat) (rid : Nat)
    (columns : List (Option Int)) : PageRangeState × List Nat × Bool :=
  let page_range_idx := rid / MAX_RECORD_PER_PAGE_RANGE
  let columns1 := columns.set TIMESTAMP_COLUMN (some (s.tps : Int))
  let logical_rid := ((columns1.getD RID_COLUMN none).getD 0).toNat
  let r := PageRangeState.write_tail_record caps wpn s logical_rid columns1
  let mq :=
    if r.1.tps % (MAX_TAIL_PAGES_BEFORE_MERGING * MAX_RECORD_PER_PAGE) = 0 then
      merge_queue ++ [page_range_idx]
    else merge_queue
  (r.1, mq, r.2)

/-! ## The merge worker's timestamp write, from `Table.__merge`
(`lstore/table.py`)

After the chain walk the worker executes, in order,
`base_data[UPDATE_TIMESTAMP_COLUMN] = latest_ts` and
`base_data[UPDATE_TIMESTAMP_COLUMN] = int(time())`, and then writes
`base_data[UPDATE_TIMESTAMP_COLUMN]` back through the buffer pool;
`now` stands for the wall-clock value `int(time())`. -/

def merge_finalize_base_data (base_data : List Int) (latest_ts now : Int) :
    List Int :=
  (base_data.set UPDATE_TIMESTAMP_COLUMN latest_ts).set
    UPDATE_TIMESTAMP_COLUMN now

/-- The value the merge worker writes into the base record's
`UPDATE_TIMESTAMP` column. -/
def merge_written_update_timestamp (base_data : List Int)
    (latest_ts now : Int) : Int :=
  (merge_finalize_base_data base_data latest_ts now).getD
    UPDATE_TIMESTAMP_COLUMN 0

/-! ## Claim C3 -/

/-- C3: evaluation at a failing input.  For a base record whose newest
consolidated tail record carries `TIMESTAMP = 5` (a `tps` value) while
the merge runs at wall-clock time `1700000000`, the merge worker writes
`1700000000` — the `int(time())` assigned on the line after
`base_data[UPDATE_TIMESTAMP_COLUMN] = latest_ts` — and not the newest
tail timestamp 5 that the claim (and the dead store in the code itself)
calls for. -/
theorem C3_merge_writes_wall_clock_not_tail_timestamp :
    merge_written_update_timestamp [6, 0, 3, 7, -2, 100, 42, 7] 5 1700000000 =
      1700000000 ∧ (1700000000 : Int) ≠ 5 := by
  decide

/-! ## Claim C10 -/

/-- The per-column loop of `write_tail_record` always reports success:
whenever `get_page_has_capacity` answers `None` or `False`, the
`if not space_available` test is already true (both are falsy), so the
`elif space_available is None: return False` arm would require the
answer to be simultaneously truthy and `None` and is never taken. -/
theorem writeTailLoop_always_true (caps : Nat → Nat → Option Bool)
    (wpn : Nat → Nat → Nat) (cols : List (Option Int)) :
    ∀ idx logical_rid s,
      (PageRangeState.writeTailLoop caps wpn cols idx logical_rid s).2 = true := by
  induction cols with
  | nil => intro idx lr s; rfl
  | cons c rest ih =>
    intro idx lr s
    cases c with
    | none => exact ih (idx + 1) lr s
    | some v =>
      simp only [PageRangeState.writeTailLoop]
      rcases hsa : caps idx (s.tail_page_index.getD idx 0) with _ | b
      · simp [pyTruthy, hsa, ih]
      · cases b
        · simp [pyTruthy, hsa, ih]
        · simp [pyTruthy, hsa, ih]

/-- The loop, when it completes, has incremented `tps` exactly once. -/
theorem writeTailLoop_tps (caps : Nat → Nat → Option Bool)
    (wpn : Nat → Nat → Nat) (cols : List (Option Int)) :
    ∀ idx logical_rid s,
      (PageRangeState.writeTailLoop caps wpn cols idx logical_rid s).1.tps =
        s.tps + 1 := by
  induction cols with
  | nil => intro idx lr s; rfl
  | cons c rest ih =>
    intro idx lr s
    cases c with
    | none => exact ih (idx + 1) lr s
    | some v =>
      simp only [PageRangeState.writeTailLoop]
      rcases hsa : caps idx (s.tail_page_index.getD idx 0) with _ | b
      · simp [pyTruthy, hsa, ih, PageRangeState.tailAppend]
        split <;> rfl
      · cases b
        · simp [pyTruthy, hsa, ih, PageRangeState.tailAppend]
          split <;> rfl
        · simp [pyTruthy, hsa, ih, PageRangeState.tailAppend]
          split <;> rfl

/-- C10: for every possible sequence of `get_page_has_capacity` answers
(`True`, `False`, or `None` for "no frame"), every state and every
column list, `write_tail_record` returns `True`: the `return False`
branch guarded by `elif space_available is None` is unreachable because
`if not space_available` already consumes both `False` and `None`. -/
theorem C10_write_tail_record_always_true (caps : Nat → Nat → Option Bool)
    (wpn : Nat → Nat → Nat) (s : PageRangeState) (logical_rid : Nat)
    (columns : List (Option Int)) :
    (PageRangeState.write_tail_record caps wpn s logical_rid columns).2 = true :=
  writeTailLoop_always_true caps wpn columns 0 logical_rid _

/-! ## Claim C4 -/

/-- A page range about to reach `tps = 16384`, which is a multiple of
`MAX_TAIL_PAGES_BEFORE_MERGING * PAGE_CAPACITY = 32 * 512` but not of
the code's threshold `MAX_TAIL_PAGES_BEFORE_MERGING *
MAX_RECORD_PER_PAGE = 32 * 1024`. -/
def rangeAt16383 : PageRangeState :=
  { tps := 16383, tail_page_index := List.replicate 6 MAX_PAGE_RANGE,
    logical_directory := [], write_log := [] }

/-- C4 counterexample: an update that takes `tps` to 16384 crosses a
multiple of `MAX_TAIL_PAGES_BEFORE_MERGING * PAGE_CAPACITY` (the
claim's threshold), yet the merge queue is left empty because the code
tests divisibility by `MAX_TAIL_PAGES_BEFORE_MERGING *
MAX_RECORD_PER_PAGE = 32768`. -/
theorem C4_no_enqueue_at_16384 :
    (update_record (fun _ _ => some true) (fun _ _ => 0) rangeAt16383 [] 5
        [some 0, some 40000, some 0, some 0, some 0, some 1]).1.tps %
      (MAX_TAIL_PAGES_BEFORE_MERGING * PAGE_CAPACITY) = 0 ∧
    (update_record (fun _ _ => some true) (fun _ _ => 0) rangeAt16383 [] 5
        [some 0, some 40000, some 0, some 0, some 0, some 1]).2.1 = [] := by
  decide

/-- C4 amended: `update_record` stamps the record's `TIMESTAMP` with the
page range's `tps`, writes the tail record (which always succeeds and
increments `tps` by one), and enqueues a merge request for the record's
page range exactly when the resulting `tps` is a multiple of
`MAX_TAIL_PAGES_BEFORE_MERGING * MAX_RECORD_PER_PAGE = 32 * 1024 =
32768` (not `MAX_TAIL_PAGES_BEFORE_MERGING * PAGE_CAPACITY = 16384`);
for every other update the merge queue is unchanged. -/
theorem C4_update_record_enqueue (caps : Nat → Nat → Option Bool)
    (wpn : Nat → Nat → Nat) (s : PageRangeState) (mq : List Nat) (rid : Nat)
    (columns : List (Option Int)) :
    (update_record caps wpn s mq rid columns).2.2 = true ∧
    (update_record caps wpn s mq rid columns).1.tps = s.tps + 1 ∧
    (update_record caps wpn s mq rid columns).2.1 =
      (if (s.tps + 1) % (MAX_TAIL_PAGES_BEFORE_MERGING * MAX_RECORD_PER_PAGE) = 0
       then mq ++ [rid / MAX_RECORD_PER_PAGE_RANGE] else mq) := by
  have htps :
      (PageRangeState.write_tail_record caps wpn s
        (((columns.set TIMESTAMP_COLUMN (some (s.tps : Int))).getD RID_COLUMN
          none).getD 0).toNat
        (columns.set TIMESTAMP_COLUMN (some (s.tps : Int)))).1.tps =
        s.tps + 1 :=
    writeTailLoop_tps caps wpn _ 0 _ _
  refine ⟨C10_write_tail_record_always_true caps wpn s _ _, ?_, ?_⟩
  · exact htps
  · simp only [update_record, htps]

/-! ## The buffer pool, from `lstore/bufferpool.py`

Frames are indexed by number; per-frame attributes are total maps.  The
page path built by `get_page_path` is a bijective image of the triple
`(page_range_index, record_column, page_index)`, so it is modelled as
that triple.  The on-disk directory of serialized page files is the
`disk` map. -/

def PagePath : Type := Nat × Nat × Nat
deriving DecidableEq

/-- Source `BufferPool.get_page_path`: the page file path determined by range,
column and page index. -/
def get_page_path (page_range_index record_column page_index : Nat) : PagePath :=
  (page_range_index, record_column, page_index)

/-- Pointwise update of a per-frame attribute map. -/
def updFn {α : Type} (f : Nat → α) (i : Nat) (v : α) : Nat → α :=
  fun j => if j = i then v else f j

/-- Pointwise update of the disk map. -/
def updDisk (d : PagePath → Option (Nat × List Nat)) (p : PagePath)
    (v : Option (Nat × List Nat)) : PagePath → Option (Nat × List Nat) :=
  fun q => if q = p then v else d q

structure BPState where
  frame_directory : List (PagePath × Nat)
  frame_pins : Nat → Nat
  frame_pages : Nat → Option StorePage
  frame_page_paths : Nat → Option PagePath
  frame_dirty_bits : Nat → Bool
  available_frames_queue : List Nat
  unavailable_frames_queue : List Nat
  disk : PagePath → Option (Nat × List Nat)

namespace BPState

/-- Directory lookup `self.frame_directory.get(page_path, None)`. -/
def lookupDir (d : List (PagePath × Nat)) (p : PagePath) : Option Nat :=
  (d.find? (fun e => decide (e.1 = p))).map (fun e => e.2)

/-- Directory removal `del self.frame_directory[page_path]`. -/
def removeDir (d : List (PagePath × Nat)) (p : PagePath) : List (PagePath × Nat) :=
  d.filter (fun e => !decide (e.1 = p))

/-- Source `BufferPool._load_page_to_frame`: place a fresh page object in the
frame, record its path, then either deserialize the existing page file
into it or — when the file does not exist — keep the empty page and set
the frame's dirty bit. -/
def load_page_to_frame (f : Nat) (path : PagePath) (s : BPState) : BPState :=
  match s.disk path with
  | some blob =>
      let s1 := { s with frame_pages := updFn s.frame_pages f (some (StorePage.deserialize blob)) }
      { s1 with frame_page_paths := updFn s1.frame_page_paths f (some path) }
  | none =>
      let s1 := { s with frame_pages := updFn s.frame_pages f (some StorePage.emptyPage) }
      let s2 := { s1 with frame_page_paths := updFn s1.frame_page_paths f (some path) }
      { s2 with frame_dirty_bits := updFn s2.frame_dirty_bits f true }

/-- Source `BufferPool._unload_page_from_frame`: flush a dirty page to its
file, then clear the dirty bit and empty the frame. -/
def unload_page_from_frame (f : Nat) (s : BPState) : BPState :=
  let s1 :=
    if s.frame_dirty_bits f then
      match s.frame_page_paths f, s.frame_pages f with
      | some p, some pg => { s with disk := updDisk s.disk p (some (StorePage.serialize pg)) }
      | _, _ => s
    else s
  let s2 := { s1 with frame_dirty_bits := updFn s1.frame_dirty_bits f false }
  let s3 := { s2 with frame_pages := updFn s2.frame_pages f none }
  { s3 with frame_page_paths := updFn s3.frame_page_paths f none }

/-- The rotation of `BufferPool.__replacement_policy`: pop the front of
the used queue; evict it if unpinned (drop its directory entry, unload,
push it on the free queue, succeed); otherwise re-enqueue it at the
tail and try the next, for at most the queue's length rounds. -/
def replacement_loop : Nat → BPState → BPState × Bool
  | 0, s => (s, false)
  | fuel + 1, s =>
      match s.unavailable_frames_queue with
      | [] => (s, false)
      | f :: rest =>
          let s0 := { s with unavailable_frames_queue := rest }
          if s0.frame_pins f = 0 then
            let s1 :=
              match s0.frame_page_paths f with
              | some p => { s0 with frame_directory := removeDir s0.frame_directory p }
              | none => s0
            let s2 := unload_page_from_frame f s1
            ({ s2 with available_frames_queue := s2.available_frames_queue ++ [f] }, true)
          else
            replacement_loop fuel
              { s0 with unavailable_frames_queue := s0.unavailable_frames_queue ++ [f] }

/-- Source `BufferPool.__replacement_policy` (LRU with pin skipping). -/
def replacement_policy (s : BPState) : BPState × Bool :=
  replacement_loop s.unavailable_frames_queue.length s

/-- Source `BufferPool.__load_new_frame`: take a free frame, pin it, load the
page into it, publish the directory entry, and put the frame on the
used queue. -/
def load_new_frame (path : PagePath) (s : BPState) : BPState × Nat :=
  let f := s.available_frames_queue.headD 0
  let s1 := { s with available_frames_queue := s.available_frames_queue.tail }
  let s2 := { s1 with frame_pins := updFn s1.frame_pins f (s1.frame_pins f + 1) }
  let s3 := load_page_to_frame f path s2
  let s4 := { s3 with frame_directory := (path, f) :: s3.frame_directory }
  let s5 := { s4 with unavailable_frames_queue := s4.unavailable_frames_queue ++ [f] }
  (s5, f)

/-- Source `BufferPool.read_page_slot`: on a directory hit, increment the
frame's pin count and return the slot value; on a miss, run the
replacement policy if no frame is free, load the page into a new frame
(which pins it) and return the slot value; return `None` when no frame
can be supplied.  No path unpins. -/
def read_page_slot (s : BPState)
    (page_range_index record_column page_index slot_index : Nat) :
    BPState × Option Int :=
  let path := get_page_path page_range_index record_column page_index
  match lookupDir s.frame_directory path with
  | some f =>
      ({ s with frame_pins := updFn s.frame_pins f (s.frame_pins f + 1) },
       (s.frame_pages f).map (fun page => page.get slot_index))
  | none =>
      if s.available_frames_queue.isEmpty then
        let r := replacement_policy s
        if r.2 then
          let lf := load_new_frame path r.1
          (lf.1, (lf.1.frame_pages lf.2).map (fun page => page.get slot_index))
        else (r.1, none)
      else
        let lf := load_new_frame path s
        (lf.1, (lf.1.frame_pages lf.2).map (fun page => page.get slot_index))

end BPState

/-! ## Claim C5 -/

namespace BPState

/-- Unloading a frame never touches any pin count. -/
theorem unload_pins (f : Nat) (s : BPState) :
    (unload_page_from_frame f s).frame_pins = s.frame_pins := by
  unfold unload_page_from_frame
  split
  · split <;> rfl
  · rfl

/-- The replacement rotation never touches any pin count. -/
theorem replacement_loop_pins (fuel : Nat) :
    ∀ s : BPState, (replacement_loop fuel s).1.frame_pins = s.frame_pins := by
  induction fuel with
  | zero => intro s; rfl
  | succ n ih =>
    intro s
    unfold replacement_loop
    cases s.unavailable_frames_queue with
    | nil => rfl
    | cons f rest =>
      dsimp only
      split
      · split <;> simp [unload_pins]
      · exact ih _

theorem replacement_policy_pins (s : BPState) :
    (replacement_policy s).1.frame_pins = s.frame_pins :=
  replacement_loop_pins _ s

/-- Loading a page into a frame preserves the directory and the pins. -/
theorem load_page_to_frame_dir_pins (f : Nat) (path : PagePath) (s : BPState) :
    (load_page_to_frame f path s).frame_directory = s.frame_directory ∧
    (load_page_to_frame f path s).frame_pins = s.frame_pins := by
  unfold load_page_to_frame
  cases s.disk path <;> exact ⟨rfl, rfl⟩

/-- A fresh directory entry is found by the directory lookup. -/
theorem lookupDir_cons (d : List (PagePath × Nat)) (p : PagePath) (f : Nat) :
    lookupDir ((p, f) :: d) p = some f := by
  simp [lookupDir, List.find?]

/-- Loading a new frame publishes the path in the directory and leaves
the chosen frame with its pin count incremented by exactly one. -/
theorem load_new_frame_spec (path : PagePath) (s : BPState) :
    lookupDir (load_new_frame path s).1.frame_directory path =
      some (load_new_frame path s).2 ∧
    (load_new_frame path s).1.frame_pins (load_new_frame path s).2 =
      s.frame_pins (load_new_frame path s).2 + 1 := by
  unfold load_new_frame
  dsimp only
  have hd := load_page_to_frame_dir_pins (s.available_frames_queue.headD 0) path
  constructor
  · rw [(hd _).1]
    exact lookupDir_cons _ _ _
  · rw [(hd _).2]
    simp [updFn]

/-- A concrete quiescent buffer pool: frame 0 holds the page at path
`(0, 0, 0)` with slot 0 equal to 42, every pin count is 0. -/
def bpHit : BPState :=
  { frame_directory := [((0, 0, 0), 0)],
    frame_pins := fun _ => 0,
    frame_pages := fun f => if f = 0 then some (StorePage.mk 1 [42]) else none,
    frame_page_paths := fun f => if f = 0 then some ((0, 0, 0) : PagePath) else none,
    frame_dirty_bits := fun _ => false,
    available_frames_queue := [1],
    unavailable_frames_queue := [0],
    disk := fun _ => none }

/-- C5 counterexample: on the quiescent pool `bpHit`, `read_page_slot`
returns the slot value 42 but leaves the pin count of the frame holding
the page at 1, not at its pre-call value 0: the operation pins without
unpinning, so a quiescent point reached through it alone has a pinned
frame. -/
theorem C5_read_page_slot_leaves_pin :
    (read_page_slot bpHit 0 0 0 0).2 = some 42 ∧
    bpHit.frame_pins 0 = 0 ∧
    ¬ ((read_page_slot bpHit 0 0 0 0).1.frame_pins 0 = bpHit.frame_pins 0) := by
  refine ⟨rfl, rfl, ?_⟩
  decide

/-- C5 amended: every call to `read_page_slot` that returns a slot value
leaves the frame holding the accessed page with a pin count exactly one
higher than before the call (the hit path pins without unpinning, and
the miss path loads the page into a frame pinned once); releasing the
pin is the caller's duty via `mark_frame_used`. -/
theorem C5_read_page_slot_pins (s : BPState)
    (pr col pg slot : Nat)
    (h : (read_page_slot s pr col pg slot).2.isSome = true) :
    ∃ f, lookupDir (read_page_slot s pr col pg slot).1.frame_directory
        (get_page_path pr col pg) = some f ∧
      (read_page_slot s pr col pg slot).1.frame_pins f = s.frame_pins f + 1 := by
  unfold read_page_slot
  unfold read_page_slot at h
  dsimp only at h ⊢
  cases hl : lookupDir s.frame_directory (get_page_path pr col pg) with
  | some f =>
    rw [hl]
    exact ⟨f, rfl, by simp [updFn]⟩
  | none =>
    rw [hl] at h
    dsimp only at h ⊢
    by_cases he : s.available_frames_queue.isEmpty
    · rw [if_pos he] at h ⊢
      by_cases hr : (replacement_policy s).2
      · rw [if_pos hr] at h ⊢
        refine ⟨(load_new_frame (get_page_path pr col pg) (replacement_policy s).1).2,
          (load_new_frame_spec _ _).1, ?_⟩
        rw [(load_new_frame_spec _ _).2, replacement_policy_pins]
      · rw [if_neg hr] at h
        exact Bool.noConfusion h
    · rw [if_neg he] at h ⊢
      exact ⟨(load_new_frame (get_page_path pr col pg) s).2,
        (load_new_frame_spec _ _).1, (load_new_frame_spec _ _).2⟩

/-- C5 amended witness: on the concrete pool `bpHit` the read returns a
value and the pin count of the serving frame rises from 0 to 1. -/
theorem C5_read_page_slot_pins_witness :
    (read_page_slot bpHit 0 0 0 0).2.isSome = true ∧
    ∃ f, lookupDir (read_page_slot bpHit 0 0 0 0).1.frame_directory
        (get_page_path 0 0 0) = some f ∧
      (read_page_slot bpHit 0 0 0 0).1.frame_pins f = bpHit.frame_pins f + 1 :=
  ⟨rfl, C5_read_page_slot_pins bpHit 0 0 0 0 rfl⟩

end BPState

/-! ## The index layer, from `lstore/index.py`

`indices[i]` is either absent (`None`) or an ordered map from a column
value to the set of base RIDs currently carrying that value (the Python
code stores the set as a `dict` mapping each RID to `True`). -/

structure IndexState where
  num_columns : Nat
  key : Nat
  indices : List (Option (List (Int × List Nat)))
deriving Repr, DecidableEq

namespace IndexState

/-- Source `Index.__init__`: all index slots empty except a fresh ordered map
for the primary key column. -/
def init (num_columns key : Nat) : IndexState :=
  { num_columns := num_columns, key := key,
    indices := (List.replicate num_columns none).set key (some []) }

/-- Ordered-map lookup `tree.get(value, None)`. -/
def treeGet (t : List (Int × List Nat)) (v : Int) : Option (List Nat) :=
  (t.find? (fun e => decide (e.1 = v))).map (fun e => e.2)

/-- Ordered-map assignment `tree[value] = rids`. -/
def treeSet (t : List (Int × List Nat)) (v : Int) (rids : List Nat) :
    List (Int × List Nat) :=
  match treeGet t v with
  | some _ => t.map (fun e => if e.1 = v then (v, rids) else e)
  | none => t ++ [(v, rids)]

/-- Bucket update `tree[value][record_id] = True`: add the RID to the value's set. -/
def treeAddRid (t : List (Int × List Nat)) (v : Int) (rid : Nat) :
    List (Int × List Nat) :=
  t.map (fun e =>
    if e.1 = v then (e.1, if e.2.contains rid then e.2 else e.2 ++ [rid]) else e)

/-- The three shapes `Index.locate` can return: `False` when the column
has no index, `None` when no record matches, or the matching RIDs. -/
inductive LocateResult
  | pyFalse
  | pyNone
  | found (rids : List Nat)
deriving Repr, DecidableEq

/-- Python truthiness of a `locate` result: only a non-empty RID list
is truthy. -/
def LocateResult.truthy : LocateResult → Bool
  | .found rids => !rids.isEmpty
  | _ => false

/-- Source `Index.locate`: `False` when the column is unindexed, otherwise
`list(tree.get(value, [])) or None`. -/
def locate (s : IndexState) (column : Nat) (value : Int) : LocateResult :=
  match s.indices.getD column none with
  | none => .pyFalse
  | some tree =>
      match treeGet tree value with
      | some rids => if rids.isEmpty then .pyNone else .found rids
      | none => .pyNone

/-- Source `Index.insert_to_index`: create the value's bucket when absent or
falsy, then set the RID in it. -/
def insert_to_index (s : IndexState) (idx : Nat) (val : Int) (record_id : Nat) :
    IndexState × Bool :=
  match s.indices.getD idx none with
  | none => (s, false)
  | some tree =>
      let tree1 :=
        match treeGet tree val with
        | some rids => if rids.isEmpty then treeSet tree val [] else tree
        | none => treeSet tree val []
      let tree2 := treeAddRid tree1 val record_id
      ({ s with indices := s.indices.set idx (some tree2) }, true)

/-- Source `Index.insert_in_all_indices`: reject when the primary key value is
already present, otherwise add the record's RID to every live index. -/
def insert_in_all_indices (s : IndexState) (columns : List (Option Int)) :
    IndexState × Bool :=
  let pk_value := (columns.getD (s.key + NUM_HIDDEN_COLUMNS) none).getD 0
  let primary := (s.indices.getD s.key none).getD []
  let dup :=
    match treeGet primary pk_value with
    | some rids => !rids.isEmpty
    | none => false
  if dup then (s, false)
  else
    let record_id := ((columns.getD RID_COLUMN none).getD 0).toNat
    let s1 := (List.range s.num_columns).foldl
      (fun acc col_idx =>
        match acc.indices.getD col_idx none with
        | some _ =>
            (insert_to_index acc col_idx
              ((columns.getD (col_idx + NUM_HIDDEN_COLUMNS) none).getD 0)
              record_id).1
        | none => acc) s
    (s1, true)

/-- Source `Index.drop_index`: reject out-of-range columns; clear and remove an
existing index; report `False` when the column has none.  There is no
primary-key guard. -/
def drop_index (s : IndexState) (col_num : Nat) : IndexState × Bool :=
  if s.num_columns ≤ col_num then (s, false)
  else
    match s.indices.getD col_num none with
    | some _ => ({ s with indices := s.indices.set col_num none }, true)
    | none => (s, false)

end IndexState

/-! ## Claim C6 -/

/-- C6 counterexample: on a fresh two-column table with primary key
column 0, `drop_index(0)` — the primary key column — succeeds and
removes the primary index, contradicting the claim that it is rejected
and that the primary index is never removed. -/
theorem C6_drop_index_primary_not_protected :
    (IndexState.drop_index (IndexState.init 2 0) 0).2 = true ∧
    (IndexState.drop_index (IndexState.init 2 0) 0).1.indices.getD 0 none = none := by
  decide

/-- C6 amended: `drop_index(col)` returns `False` for an out-of-range
column or one with no index; for every column with an existing index —
including the primary key column, which is not protected — it clears
that index slot to `None` and leaves every other column's index
unchanged.  The primary index is present initially but does not survive
`drop_index(key)`. -/
theorem C6_drop_index_clears (s : IndexState) (col : Nat)
    (h1 : col < s.num_columns)
    (h2 : (s.indices.getD col none).isSome = true) :
    (IndexState.drop_index s col).2 = true ∧
    (IndexState.drop_index s col).1.indices.getD col none = none ∧
    ∀ j, j ≠ col →
      (IndexState.drop_index s col).1.indices.getD j none =
        s.indices.getD j none := by
  unfold IndexState.drop_index
  rw [if_neg (by omega)]
  cases hidx : s.indices.getD col none with
  | none => rw [hidx] at h2; exact Bool.noConfusion h2
  | some tree =>
    have hlen : col < s.indices.length := by
      by_contra hge
      rw [List.getD_eq_default] at hidx
      · exact Option.noConfusion hidx
      · omega
    refine ⟨rfl, ?_, ?_⟩
    · show (s.indices.set col none).getD col none = none
      simp [List.getD, List.getElem?_set_self hlen]
    · intro j hj
      show (s.indices.set col none).getD j none = s.indices.getD j none
      simp [List.getD, List.getElem?_set_ne (Ne.symm hj)]

/-- C6 amended witness: on the fresh two-column index, dropping the
primary column's index succeeds, clears it, and leaves column 1 alone. -/
theorem C6_drop_index_clears_witness :
    (0 < (IndexState.init 2 0).num_columns ∧
      ((IndexState.init 2 0).indices.getD 0 none).isSome = true) ∧
    (IndexState.drop_index (IndexState.init 2 0) 0).2 = true ∧
    (IndexState.drop_index (IndexState.init 2 0) 0).1.indices.getD 0 none = none ∧
    ∀ j, j ≠ 0 →
      (IndexState.drop_index (IndexState.init 2 0) 0).1.indices.getD j none =
        (IndexState.init 2 0).indices.getD j none :=
  ⟨⟨by decide, by decide⟩, C6_drop_index_clears (IndexState.init 2 0) 0 (by decide) (by decide)⟩

/-! ## The Record class and the query facade, from `lstore/table.py`
and `lstore/query.py` -/

/-- The Record class of `lstore/table.py`: it defines `__init__` and
`__str__` only. -/
structure Record where
  rid : Option Nat
  key : Nat
  columns : List Int
deriving Repr, DecidableEq

/-- Python subscription `record[i]` on a Record: the class defines no
`__getitem__`, so every subscription attempt raises `TypeError` — in
the embedding, no index has a value. -/
def record_getitem (_r : Record) (_i : Nat) : Option Int :=
  none

/-- The table state the query facade acts on: schema, the `tps` of the
(single) page range, the RID allocator (recycling queue plus counter),
the index, and the stream of base records written to storage. -/
structure TableState where
  num_columns : Nat
  key : Nat
  tps : Nat
  rid_index : Nat
  allocation_base_rid_queue : List Nat
  index : IndexState
  base_store : List (Nat × List (Option Int))
deriving Repr, DecidableEq

namespace TableState

/-- Source `Table.assign_rid_to_record`: reuse a recycled base RID when the
allocation queue is non-empty, else take and bump `rid_index`. -/
def assign_rid (s : TableState) : Nat × TableState :=
  match s.allocation_base_rid_queue with
  | r :: rest => (r, { s with allocation_base_rid_queue := rest })
  | [] => (s.rid_index, { s with rid_index := s.rid_index + 1 })

/-- Source `Table.insert_record` followed by `PageRange.write_base_record`:
stamp `TIMESTAMP` with the page range's `tps`, set the indirection
self-pointer `rid mod T`, persist the columns, and increment `tps`. -/
def insert_record (s : TableState) (rid : Nat) (columns : List (Option Int)) :
    TableState :=
  let stamped := columns.set TIMESTAMP_COLUMN (some (s.tps : Int))
  let withInd := stamped.set INDIRECTION_COLUMN
    (some ((rid % MAX_RECORD_PER_PAGE_RANGE : Nat) : Int))
  { s with base_store := s.base_store ++ [(rid, withInd)], tps := s.tps + 1 }

end TableState

namespace Query

/-- Source `Query.insert`: reject when the primary key value already locates a
record; reject a wrong column count; otherwise allocate a base RID,
fill the hidden metadata columns (indirection and RID self-pointers,
`UPDATE_TIMESTAMP = RECORD_NONE_VALUE` then overwritten by
`SCHEMA_ENCODING = 0`, both at list index 3), write the base record and
add it to all indices. -/
def insert (s : TableState) (columns : List Int) : TableState × Bool :=
  if (IndexState.locate s.index s.key (columns.getD s.key 0)).truthy then
    (s, false)
  else if columns.length ≠ s.num_columns then (s, false)
  else
    let a := s.assign_rid
    let rid := a.1
    let s1 := a.2
    let metadata0 := List.replicate NUM_HIDDEN_COLUMNS (none : Option Int)
    let metadata1 := metadata0.set INDIRECTION_COLUMN (some (rid : Int))
    let metadata2 := metadata1.set RID_COLUMN (some (rid : Int))
    let metadata3 := metadata2.set UPDATE_TIMESTAMP_COLUMN (some RECORD_NONE_VALUE)
    let metadata4 := metadata3.set SCHEMA_ENCODING_COLUMN (some 0)
    let entry := metadata4 ++ columns.map some
    let s2 := TableState.insert_record s1 rid entry
    let s3 := { s2 with index := (IndexState.insert_in_all_indices s2.index entry).1 }
    (s3, true)

/-- Source `Query.increment`: select the record by primary key, then — since a
Record object is never `False` — read `matching_record[column]`, build
the single-column update `column := value + 1` and run it.  The
subscription step goes through `record_getitem`; the `update` callback
stands for `self.update(key, *incremented_values)`. -/
def increment (num_columns : Nat) (selectResult : List Record) (column : Nat)
    (update : List (Option Int) → Bool) : Except String Bool :=
  match selectResult with
  | [] => Except.error "IndexError: list index out of range"
  | matching_record :: _ =>
      match record_getitem matching_record column with
      | none => Except.error "TypeError: Record object is not subscriptable"
      | some v =>
          let incremented_values :=
            (List.replicate num_columns (none : Option Int)).set column (some (v + 1))
          Except.ok (update incremented_values)

end Query

/-! ## Claim C7 -/

/-- C7: whenever the primary key value of the inserted columns already
appears in the primary index (a truthy `locate`), `Query.insert`
returns `False` with the table state unchanged: no RID is taken from
the allocation queue or the counter, nothing is written, and no index
is touched. -/
theorem C7_insert_duplicate_noop (s : TableState) (columns : List Int)
    (h : (IndexState.locate s.index s.key (columns.getD s.key 0)).truthy = true) :
    Query.insert s columns = (s, false) := by
  unfold Query.insert
  rw [if_pos h]

/-- A two-column table whose primary index already holds key 100. -/
def dupTable : TableState :=
  { num_columns := 2, key := 0, tps := 1, rid_index := 1,
    allocation_base_rid_queue := [],
    index := { num_columns := 2, key := 0, indices := [some [(100, [0])], none] },
    base_store := [(0, [some 0, some 0, some 0, some 0, none, some 100, some 7])] }

/-- C7 witness: inserting key 100 into `dupTable` is rejected and the
state is returned unchanged. -/
theorem C7_insert_duplicate_noop_witness :
    (IndexState.locate dupTable.index dupTable.key
      (([100, 8] : List Int).getD dupTable.key 0)).truthy = true ∧
    Query.insert dupTable [100, 8] = (dupTable, false) :=
  ⟨by decide, C7_insert_duplicate_noop dupTable [100, 8] (by decide)⟩

/-! ## Claim C9 -/

/-- C9: evaluation at the failing input.  Whenever the select finds a
record (the list is non-empty, as it is for any present primary key),
`Query.increment` raises `TypeError` at the subscription
`matching_record[column]` — the Record class has no `__getitem__` — so
it never reaches the update; the claimed select-then-update behaviour
(and the method's own docstring) is not delivered by the code. -/
theorem C9_increment_raises_type_error (num_columns : Nat) (r : Record)
    (rest : List Record) (column : Nat) (update : List (Option Int) → Bool) :
    Query.increment num_columns (r :: rest) column update =
      Except.error "TypeError: Record object is not subscriptable" :=
  rfl

end LStore
